import Mathlib

/-!
Verification development for the fluentia backend (gabrielustosa/fluentia).

This file shallowly embeds the data model and the exercise-derivation
subsystem of the repository: the SQLModel tables become Lean structures,
database tables become lists of rows, and the SQLAlchemy event hooks of
`fluentia/apps/term/models.py` become pure state-transition functions on a
`DB` record.  Pydantic validators (`fluentia/apps/term/schema.py`) become
boolean acceptance functions, with a `ValueError` raise modelled as the
validator returning `false`.  Python operations that raise exceptions are
modelled with `Option`/`Except`; an `HTTPException(404)` and an
`AttributeError` are distinguished because `PronunciationLink.create` only
catches the former.
-/

namespace Fluentia

/-- Embedding of `fluentia.apps.term.constants.Language` (`pt-br`, `en`,
`de`, `fr`, `es`, `it`). -/
inductive Language where
  | portuguesBrasil
  | english
  | deutsch
  | francais
  | espanol
  | italiano
deriving DecidableEq, Repr

/-- Embedding of `fluentia.apps.term.constants.TermLevel` (`A1`..`C2`). -/
inductive TermLevel where
  | a1 | a2 | b1 | b2 | c1 | c2
deriving DecidableEq, Repr

/-- Embedding of `fluentia.apps.term.constants.TermLexicalType`, exactly as
the enum is written in `constants.py`: its members are `SYNONYM`, `ANTONYM`
and `FORMS` (there is no member named `FORM`). -/
inductive TermLexicalType where
  | synonym
  | antonym
  | forms
deriving DecidableEq, Repr

/-- Embedding of Python attribute access `TermLexicalType.<NAME>` on the enum
class of `constants.py`: a known member name yields the member, any other
name raises `AttributeError`, modelled as `none`.  `models.py` accesses
`constants.TermLexicalType.FORM`, which is not a member. -/
def TermLexicalType.fromName : String → Option TermLexicalType
  | "SYNONYM" => some TermLexicalType.synonym
  | "ANTONYM" => some TermLexicalType.antonym
  | "FORMS" => some TermLexicalType.forms
  | _ => none

/-- Embedding of `fluentia.apps.exercises.constants.ExerciseType`. -/
inductive ExerciseType where
  | order_sentence
  | listen_term
  | listen_term_mchoice
  | listen_sentence
  | speak_term
  | speak_sentence
  | mchoice_term
  | mchoice_term_translation
  | random
deriving DecidableEq, Repr

/-- Row of the `term` table (`Term(term, origin_language)`). -/
structure TermRow where
  term : String
  origin_language : Language
deriving DecidableEq, Repr

/-- Row of the `pronunciation` table. -/
structure PronunciationRow where
  id : Nat
  audio_file : Option String
  description : Option String
  language : Language
  phonetic : String
  text : String
deriving DecidableEq, Repr

/-- Row of the `pronunciationlink` table (`pronunciation_id` is the primary
key; exactly the optional target columns of the model). -/
structure PronunciationLinkRow where
  pronunciation_id : Nat
  term : Option String := none
  origin_language : Option Language := none
  term_example_id : Option Nat := none
  term_lexical_id : Option Nat := none
deriving DecidableEq, Repr

/-- Row of the `termexample` table.  The source column is called `example`,
a keyword in Lean, hence the trailing underscore. -/
structure TermExampleRow where
  id : Nat
  language : Language
  example_ : String
  level : Option TermLevel := none
deriving DecidableEq, Repr

/-- Row of the `termexampletranslation` table (composite key
`(language, term_example_id)`). -/
structure TermExampleTranslationRow where
  language : Language
  term_example_id : Nat
  translation : String
deriving DecidableEq, Repr

/-- Row of the `termlexical` table (the JSON `extra` column is omitted: no
hook or claim reads it). -/
structure TermLexicalRow where
  id : Nat
  term : String
  origin_language : Language
  value : String
  type : TermLexicalType
deriving DecidableEq, Repr

/-- Row of the `exercise` table.  The surrogate `id` column is omitted: the
hooks never filter on it and rows are identified by their attribute tuple. -/
structure ExerciseRow where
  language : Language
  type : ExerciseType
  translation_language : Option Language := none
  term : Option String := none
  origin_language : Option Language := none
  term_example_id : Option Nat := none
  pronunciation_id : Option Nat := none
  term_lexical_id : Option Nat := none
  term_definition_id : Option Nat := none
deriving DecidableEq, Repr

/-- The keyword arguments passed to `get_or_create_object(Exercise, ...)`.
Every call site of the hooks supplies `language` and `type`; a `none` in an
optional field means the keyword was not passed (so the column is not
filtered on, and defaults to NULL on creation). -/
structure ExerciseQuery where
  language : Language
  type : ExerciseType
  translation_language : Option Language := none
  term : Option String := none
  origin_language : Option Language := none
  term_example_id : Option Nat := none
  pronunciation_id : Option Nat := none
  term_lexical_id : Option Nat := none
  term_definition_id : Option Nat := none
deriving DecidableEq, Repr

/-- One keyword of a `filter_by`: an omitted keyword (`none`) matches any
row value, a supplied keyword matches rows whose column holds that value. -/
def optMatch {α : Type} [DecidableEq α] (qv : Option α) (rv : Option α) : Bool :=
  match qv with
  | none => true
  | some v => rv == some v

/-- Membership test of `select(Exercise).filter_by(**kwargs)`: a row matches
when every supplied keyword equals the row's column. -/
def matchesQuery (q : ExerciseQuery) (r : ExerciseRow) : Bool :=
  r.language == q.language && r.type == q.type &&
  optMatch q.translation_language r.translation_language &&
  optMatch q.term r.term &&
  optMatch q.origin_language r.origin_language &&
  optMatch q.term_example_id r.term_example_id &&
  optMatch q.pronunciation_id r.pronunciation_id &&
  optMatch q.term_lexical_id r.term_lexical_id &&
  optMatch q.term_definition_id r.term_definition_id

/-- The row built by `Exercise(**kwargs)`: supplied keywords become column
values, omitted optional columns default to NULL. -/
def ExerciseQuery.toRow (q : ExerciseQuery) : ExerciseRow :=
  { language := q.language, type := q.type,
    translation_language := q.translation_language, term := q.term,
    origin_language := q.origin_language, term_example_id := q.term_example_id,
    pronunciation_id := q.pronunciation_id, term_lexical_id := q.term_lexical_id,
    term_definition_id := q.term_definition_id }

/-- Embedding of `fluentia.core.model.shortcut.get_or_create_object`
specialised to the `Exercise` table: return the first row matching all the
given attributes with `created = False`, otherwise insert `Model(**kwargs)`
and return it with `created = True`.  (The `except` branch of the Python
code only fires on a database error, which the sequential model has none
of.)  Result: `(row, created, table)`. -/
def get_or_create_object (table : List ExerciseRow) (q : ExerciseQuery) :
    ExerciseRow × Bool × List ExerciseRow :=
  match table.find? (matchesQuery q) with
  | some instance_ => (instance_, false, table)
  | none => (q.toRow, true, table ++ [q.toRow])

/-- Python truthiness of an optional string column
(`None` and the empty string are falsy). -/
def truthyStr (o : Option String) : Bool :=
  match o with
  | none => false
  | some s => !(s == "")

/-- Python truthiness of an optional integer column
(`None` and `0` are falsy). -/
def truthyNat (o : Option Nat) : Bool :=
  match o with
  | none => false
  | some n => !(n == 0)

/-- The database: one list of rows per table that the verified operations
touch.  Tables no hook or claim reads (definitions, cards, users, ...) are
omitted. -/
structure DB where
  terms : List TermRow := []
  pronunciations : List PronunciationRow := []
  pronunciation_links : List PronunciationLinkRow := []
  examples : List TermExampleRow := []
  example_translations : List TermExampleTranslationRow := []
  lexicals : List TermLexicalRow := []
  exercises : List ExerciseRow := []
deriving DecidableEq, Repr

/-- Hook `insert_order_exercise` (`@listens_for(TermExampleTranslation,
"after_insert")`): look up the translated example (`.one()` raises when it
is missing, modelled as `none`) and get-or-create an `ORDER_SENTENCE`
exercise keyed by the example's language, the example id and the
translation's language. -/
def insert_order_exercise (db : DB) (target : TermExampleTranslationRow) : Option DB :=
  match db.examples.find? (fun e => e.id == target.term_example_id) with
  | none => none
  | some db_example =>
    some { db with exercises := (get_or_create_object db.exercises
      { language := db_example.language,
        term_example_id := some target.term_example_id,
        translation_language := some target.language,
        type := ExerciseType.order_sentence }).2.2 }

/-- Hook `insert_listen_exercise` (`@listens_for(PronunciationLink,
"after_insert")`): fetch the pronunciation (`.one()`); return unchanged when
`audio_file is None`; otherwise branch on the truthiness of the link's
target columns, in the source's order `term`, `term_example_id`,
`term_lexical_id`, and get-or-create the corresponding listen exercise
carrying `pronunciation_id`.  Paths on which the Python code would raise
(missing referenced row, a NULL `language`/`type` reaching the insert)
yield `none`. -/
def insert_listen_exercise (db : DB) (target : PronunciationLinkRow) : Option DB :=
  match db.pronunciations.find? (fun p => p.id == target.pronunciation_id) with
  | none => none
  | some pronunciation =>
    if pronunciation.audio_file.isNone then some db
    else if truthyStr target.term then
      match target.term, target.origin_language with
      | some t, some ol =>
        some { db with exercises := (get_or_create_object db.exercises
          { term := some t, origin_language := some ol, language := ol,
            type := ExerciseType.listen_term,
            pronunciation_id := some target.pronunciation_id }).2.2 }
      | _, _ => none
    else if truthyNat target.term_example_id then
      match target.term_example_id with
      | none => none
      | some exid =>
        match db.examples.find? (fun e => e.id == exid) with
        | none => none
        | some db_example =>
          some { db with exercises := (get_or_create_object db.exercises
            { language := db_example.language, term_example_id := some exid,
              type := ExerciseType.listen_sentence,
              pronunciation_id := some target.pronunciation_id }).2.2 }
    else if truthyNat target.term_lexical_id then
      match target.term_lexical_id with
      | none => none
      | some lexid =>
        match db.lexicals.find? (fun l => l.id == lexid) with
        | none => none
        | some db_lexical =>
          some { db with exercises := (get_or_create_object db.exercises
            { language := db_lexical.origin_language,
              term_lexical_id := some lexid,
              type := ExerciseType.listen_term,
              pronunciation_id := some target.pronunciation_id }).2.2 }
    else none

/-- Predicate of the `select(Exercise)` issued by `update_listen_exercise`
when the audio was cleared: the exercise references the pronunciation and is
of a listen kind. -/
def isListenExerciseOf (i : Nat) (r : ExerciseRow) : Bool :=
  r.pronunciation_id == some i &&
    (r.type == ExerciseType.listen_sentence || r.type == ExerciseType.listen_term)

/-- Hook `update_listen_exercise` (`@listens_for(Pronunciation,
"after_update")`): when the updated row's `audio_file` is falsy, delete the
first listen exercise referencing it (if any); otherwise re-run
`insert_listen_exercise` on the pronunciation's link (if any). -/
def update_listen_exercise (db : DB) (target : PronunciationRow) : Option DB :=
  if !(truthyStr target.audio_file) then
    some { db with exercises := db.exercises.eraseP (isListenExerciseOf target.id) }
  else
    match db.pronunciation_links.find? (fun l => l.pronunciation_id == target.id) with
    | none => some db
    | some link => insert_listen_exercise db link

/-- Hook `insert_speak_sentence_exercise` (`@listens_for(TermExample,
"after_insert")`). -/
def insert_speak_sentence_exercise (db : DB) (target : TermExampleRow) : DB :=
  { db with exercises := (get_or_create_object db.exercises
      { term_example_id := some target.id, type := ExerciseType.speak_sentence,
        language := target.language }).2.2 }

/-- Hook `insert_mchoice_term_exercise` (`@listens_for(TermLexical,
"after_insert")`): nothing unless the inserted entry is an antonym; count
the term's antonym entries (the freshly inserted row is already visible to
the hook's session) and get-or-create an `MCHOICE_TERM` exercise when the
count reaches 3. -/
def insert_mchoice_term_exercise (db : DB) (target : TermLexicalRow) : DB :=
  if target.type != TermLexicalType.antonym then db
  else
    let count := (db.lexicals.filter (fun l =>
      l.term == target.term && l.origin_language == target.origin_language &&
      l.type == TermLexicalType.antonym)).length
    if count ≥ 3 then
      { db with exercises := (get_or_create_object db.exercises
          { term := some target.term, origin_language := some target.origin_language,
            type := ExerciseType.mchoice_term, language := target.origin_language }).2.2 }
    else db

/-- Inserting a `TermExample` row: the row is written, then the single
`after_insert` listener on `TermExample`, `insert_speak_sentence_exercise`,
fires in the same transaction. -/
def termExampleInsert (db : DB) (row : TermExampleRow) : DB :=
  insert_speak_sentence_exercise { db with examples := db.examples ++ [row] } row

/-- Inserting a `TermExampleTranslation` row: the row is written, then the
single `after_insert` listener on `TermExampleTranslation`,
`insert_order_exercise`, fires. -/
def termExampleTranslationInsert (db : DB) (row : TermExampleTranslationRow) : Option DB :=
  insert_order_exercise { db with example_translations := db.example_translations ++ [row] } row

/-- Inserting a `TermLexical` row: the row is written, then the single
`after_insert` listener on `TermLexical`, `insert_mchoice_term_exercise`,
fires. -/
def termLexicalInsert (db : DB) (row : TermLexicalRow) : DB :=
  insert_mchoice_term_exercise { db with lexicals := db.lexicals ++ [row] } row

/-- Python exceptions the embedded operations can raise:
`HTTPException(404)`, `AttributeError` and `KeyError`.
`PronunciationLink.create` catches only the first kind. -/
inductive PyError where
  | httpNotFound
  | attributeError
  | keyError
deriving DecidableEq, Repr

/-- Embedding of `Term.get`.  The SQL query compares `clean_text` of the
stored and queried strings; `clean_text` is a database function installed
outside this repository's source tree, so it is abstracted as a parameter.
Building the query evaluates the Python expression
`constants.TermLexicalType.FORM`; per `TermLexicalType.fromName` that
attribute does not exist on the enum of `constants.py` (its member is
`FORMS`), so the construction raises `AttributeError` before the query can
run.  The `some` branch transcribes the `union` query: terms whose cleaned
`term` equals the cleaned argument, united with terms referenced by a
lexical entry of the form type whose cleaned `value` equals the cleaned
argument. -/
def termGet (cleanText : String → String) (db : DB) (term : String)
    (origin_language : Language) : Except PyError (Option TermRow) :=
  match TermLexicalType.fromName "FORM" with
  | none => Except.error PyError.attributeError
  | some formType =>
    Except.ok
      ((db.terms.filter (fun t =>
          t.origin_language == origin_language &&
            cleanText t.term == cleanText term) ++
        db.terms.filter (fun t =>
          db.lexicals.any (fun l =>
            l.term == t.term && l.origin_language == t.origin_language &&
              cleanText l.value == cleanText term &&
              l.origin_language == origin_language &&
              l.type == formType))).head?)

/-- Embedding of `Term.get_or_404`: a `None` result of `Term.get` becomes
`HTTPException(404)`; other exceptions propagate. -/
def termGet_or_404 (cleanText : String → String) (db : DB) (term : String)
    (origin_language : Language) : Except PyError TermRow :=
  match termGet cleanText db term origin_language with
  | Except.error e => Except.error e
  | Except.ok none => Except.error PyError.httpNotFound
  | Except.ok (some t) => Except.ok t

/-- Delete issued by `PronunciationLink.create` on a 404:
`delete(Pronunciation).where(Pronunciation.id == pronunciation_id)`. -/
def dbDeletePronunciation (db : DB) (i : Nat) : DB :=
  { db with pronunciations := db.pronunciations.filter (fun p => !(p.id == i)) }

/-- Insert of the link row, `create(PronunciationLink, session, **data)`. -/
def dbAppendLink (db : DB) (d : PronunciationLinkRow) : DB :=
  { db with pronunciation_links := db.pronunciation_links ++ [d] }

/-- Embedding of `PronunciationLink.create`: validate the referenced target
inside a `try` block whose `except HTTPException` handler deletes the
pronunciation row and re-raises; targets are tried in the source's order
(`"term" in data`, `"term_example_id" in data`, `"term_lexical_id" in
data`, a `none` field meaning the keyword is absent).  A term target reads
`data["origin_language"]` (absent: `KeyError`, uncaught) and calls
`Term.get_or_404`, whose `AttributeError` is likewise not caught, leaving
the database untouched.  Returns the resulting database and the result. -/
def pronunciationLink_create (cleanText : String → String) (db : DB)
    (data : PronunciationLinkRow) : DB × Except PyError PronunciationLinkRow :=
  if data.term.isSome then
    match data.term, data.origin_language with
    | some t, some ol =>
      match termGet_or_404 cleanText db t ol with
      | Except.error PyError.httpNotFound =>
        (dbDeletePronunciation db data.pronunciation_id, Except.error PyError.httpNotFound)
      | Except.error e => (db, Except.error e)
      | Except.ok db_term =>
        let d := { data with term := some db_term.term }
        (dbAppendLink db d, Except.ok d)
    | _, _ => (db, Except.error PyError.keyError)
  else if data.term_example_id.isSome then
    match data.term_example_id with
    | none => (db, Except.error PyError.keyError)
    | some exid =>
      match db.examples.find? (fun e => e.id == exid) with
      | none =>
        (dbDeletePronunciation db data.pronunciation_id, Except.error PyError.httpNotFound)
      | some _ => (dbAppendLink db data, Except.ok data)
  else if data.term_lexical_id.isSome then
    match data.term_lexical_id with
    | none => (db, Except.error PyError.keyError)
    | some lexid =>
      match db.lexicals.find? (fun l => l.id == lexid) with
      | none =>
        (dbDeletePronunciation db data.pronunciation_id, Except.error PyError.httpNotFound)
      | some _ => (dbAppendLink db data, Except.ok data)
  else (dbAppendLink db data, Except.ok data)

/-- The four optional link fields shared by the two request schemas.  This
embeds both `PronunciationLinkSchema` (where `target_id_a` is
`term_example_id` and `target_id_b` is `term_lexical_id`) and
`TermExampleLinkSchema` (where `target_id_a` is `term_definition_id` and
`target_id_b` is `term_lexical_id`); their `link_validation` bodies are
textually identical up to that renaming. -/
structure LinkTargets where
  term : Option String := none
  origin_language : Option Language := none
  target_id_a : Option Nat := none
  target_id_b : Option Nat := none
deriving DecidableEq, Repr

/-- Value of `len(link_attributes)`: the number of link fields that are not `None`. -/
def link_count (s : LinkTargets) : Nat :=
  (if s.term.isSome then 1 else 0) + (if s.origin_language.isSome then 1 else 0) +
    (if s.target_id_a.isSome then 1 else 0) + (if s.target_id_b.isSome then 1 else 0)

/-- Embedding of the `link_validation` model validator (a raised
`ValueError` is `false`): reject an empty link; when `term` or
`origin_language` is present both must be truthy and nothing else may be
set; otherwise at most one id target may be set. -/
def link_validation (s : LinkTargets) : Bool :=
  if link_count s == 0 then false
  else if s.term.isSome || s.origin_language.isSome then
    if !(truthyStr s.term && s.origin_language.isSome) then false
    else if link_count s > 2 then false
    else true
  else if link_count s > 1 then false
  else true

/-- Python `range(v1, v2 + 1)` over the integers. -/
def rangeClosed (v1 v2 : Int) : List Int :=
  (List.range (v2 + 1 - v1).toNat).map (fun (i : Nat) => v1 + (i : Int))

/-- The loop of `ExampleHighlightValidator.validate_highlight`:
`intervals` accumulates every position covered by an accepted pair; a pair
of the wrong shape, out of bounds, out of order, or meeting an accumulated
position rejects the whole list. -/
def validate_pairs : List (List Int) → Int → List Int → Bool
  | [], _, _ => true
  | value :: rest, example_len, intervals =>
    match value with
    | [v1, v2] =>
      if v1 > example_len || v2 > example_len then false
      else if v1 < 0 || v2 < 0 then false
      else if v1 > v2 then false
      else if (rangeClosed v1 v2).any (fun i => intervals.contains i) then false
      else validate_pairs rest example_len (intervals ++ rangeClosed v1 v2)
    | _ => false

/-- Embedding of `ExampleHighlightValidator.validate_highlight` for a text
of `textLen` characters (`example_len = len(example) - 1`). -/
def validate_highlight (highlight : List (List Int)) (textLen : Nat) : Bool :=
  validate_pairs highlight ((textLen : Int) - 1) []

/-- Position `x` lies in the closed interval described by the highlight pair `v`. -/
def pointIn (x : Int) (v : List Int) : Prop :=
  ∃ s e, v = [s, e] ∧ s ≤ x ∧ x ≤ e

/-- The claim's per-entry condition: `v` is a pair `[start, end]` with
`0 ≤ start`, `start ≤ end` and `end ≤ example_len` (`len(text) - 1`). -/
def pairOK (example_len : Int) (v : List Int) : Prop :=
  ∃ s e, v = [s, e] ∧ 0 ≤ s ∧ s ≤ e ∧ e ≤ example_len

/-- The claim's no-overlap condition: the closed intervals of two highlight
pairs share no position. -/
def pairsDisjoint (v w : List Int) : Prop :=
  ∀ x, pointIn x v → pointIn x w → False

/-- Python's `string.punctuation`: the 32 ASCII punctuation characters,
exactly the codes 33-47, 58-64, 91-96 and 123-126. -/
def pythonPunctuation : List Char :=
  ((List.range 128).filter (fun n =>
    decide ((33 ≤ n ∧ n ≤ 47) ∨ (58 ≤ n ∧ n ≤ 64) ∨ (91 ≤ n ∧ n ≤ 96) ∨
      (123 ≤ n ∧ n ≤ 126)))).map Char.ofNat

/-- Python `text.translate(translator)` where the translator deletes every
punctuation character except `*`. -/
def stripPunct (s : String) : String :=
  ⟨s.toList.filter (fun c => !(pythonPunctuation.contains c && !(c == '*')))⟩

/-- Python's `str.split()` whitespace set: space, tab, newline, carriage
return, vertical tab, form feed. -/
def pyIsSpace (c : Char) : Bool :=
  c == ' ' || c == '\t' || c == '\n' || c == '\r' || c == Char.ofNat 11 || c == Char.ofNat 12

/-- Scanner implementing Python's `str.split()` with no argument: maximal
runs of non-whitespace characters become words (so no empty words occur);
`acc` holds the current word reversed. -/
def pyWordsAux : List Char → List Char → List (List Char)
  | [], acc => if acc.isEmpty then [] else [acc.reverse]
  | c :: cs, acc =>
    if pyIsSpace c then
      if acc.isEmpty then pyWordsAux cs [] else acc.reverse :: pyWordsAux cs []
    else pyWordsAux cs (c :: acc)

/-- Python's `str.split()` with no argument, as a list of words. -/
def pySplit (s : String) : List (List Char) :=
  pyWordsAux s.toList []

/-- Embedding of `fluentia.core.api.highlight.check_text_highlight` at its
default marker `'*'`: strip the other punctuation, split into words, and
look for a word that starts and ends with the marker (for the nonempty
words of a split, `startswith`/`endswith` of the one-character marker are
the first- and last-character tests). -/
def check_text_highlight (text : String) : Bool :=
  (pySplit (stripPunct text)).any (fun word =>
    word.head? == some '*' && word.getLast? == some '*')

/-- A `TermExampleSchema` request body (`language`, `example`, `highlight`,
`level` plus the inherited link fields; `example` is a Lean keyword, hence
the trailing underscore). -/
structure TermExampleSchemaPayload where
  term : Option String := none
  origin_language : Option Language := none
  term_definition_id : Option Nat := none
  term_lexical_id : Option Nat := none
  language : Language
  example_ : String
  highlight : List (List Int)
  level : Option TermLevel := none
deriving DecidableEq, Repr

/-- Acceptance of a `TermExampleSchema` body: the schema runs exactly two
model validators, `TermExampleLinkSchema.link_validation` and
`ExampleHighlightValidator.validate_highlight`; the body is accepted when
neither raises. -/
def termExampleSchema_validate (p : TermExampleSchemaPayload) : Bool :=
  link_validation
      { term := p.term, origin_language := p.origin_language,
        target_id_a := p.term_definition_id, target_id_b := p.term_lexical_id } &&
    validate_highlight p.highlight p.example_.length

/-- A concrete example row used to exercise the insert hooks (C1). -/
def exampleRowC1 : TermExampleRow :=
  { id := 1, language := Language.english, example_ := "I made a cake." }

/-- A concrete pronunciation with audio used by the C2 witness. -/
def pronRowC2 : PronunciationRow :=
  { id := 5, audio_file := some "https://x.test/a.mp3", description := none,
    language := Language.english, phonetic := "haus", text := "house" }

/-- The one-listen-exercise table used by the C3 witness. -/
def dbC3 : DB :=
  { exercises := [
      { language := Language.english, type := ExerciseType.listen_term,
        term := some "house", origin_language := some Language.english,
        pronunciation_id := some 5 }] }

/-- The audio-cleared pronunciation row used by the C3 witness. -/
def pronRowC3 : PronunciationRow :=
  { id := 5, audio_file := none, description := none,
    language := Language.english, phonetic := "haus", text := "house" }

/-- The database used by the C9 evaluation: one audio-bearing
pronunciation, no terms, no examples. -/
def dbC9 : DB :=
  { pronunciations := [
      { id := 1, audio_file := some "https://x.test/a.mp3", description := none,
        language := Language.english, phonetic := "kaza", text := "casa" }] }

/-- A `TermExampleSchema` body whose text contains no asterisk-delimited
span (the text has 43 characters; `house` occupies positions 37..41),
used for C6. -/
def payloadC6 : TermExampleSchemaPayload :=
  { term := some "house", origin_language := some Language.english,
    language := Language.english,
    example_ := "Yesterday a have lunch in my mothers house.",
    highlight := [[37, 41]] }

lemma optMatch_self {α : Type} [DecidableEq α] (v : Option α) : optMatch v v = true := by
  cases v <;> simp [optMatch]

lemma matchesQuery_toRow (q : ExerciseQuery) : matchesQuery q q.toRow = true := by
  simp [matchesQuery, ExerciseQuery.toRow, optMatch_self]

lemma goc_found {table : List ExerciseRow} {q : ExerciseQuery} {r : ExerciseRow}
    (h : table.find? (matchesQuery q) = some r) :
    get_or_create_object table q = (r, false, table) := by
  simp [get_or_create_object, h]

lemma goc_not_found {table : List ExerciseRow} {q : ExerciseQuery}
    (h : table.find? (matchesQuery q) = none) :
    get_or_create_object table q = (q.toRow, true, table ++ [q.toRow]) := by
  simp [get_or_create_object, h]

lemma goc_mem (table : List ExerciseRow) (q : ExerciseQuery) :
    (get_or_create_object table q).1 ∈ (get_or_create_object table q).2.2 ∧
      matchesQuery q (get_or_create_object table q).1 = true := by
  unfold get_or_create_object
  cases h : table.find? (matchesQuery q) with
  | some r =>
    exact ⟨List.mem_of_find?_eq_some h, List.find?_some h⟩
  | none =>
    refine ⟨?_, matchesQuery_toRow q⟩
    simp

lemma goc_exists_match (table : List ExerciseRow) (q : ExerciseQuery) :
    ∃ r ∈ (get_or_create_object table q).2.2, matchesQuery q r = true :=
  ⟨(get_or_create_object table q).1, (goc_mem table q).1, (goc_mem table q).2⟩

lemma goc_unchanged_of_exists {table : List ExerciseRow} {q : ExerciseQuery}
    (h : ∃ r ∈ table, matchesQuery q r = true) :
    get_or_create_object table q = ((get_or_create_object table q).1, false, table) := by
  have hs : (table.find? (matchesQuery q)).isSome := by
    rw [List.find?_isSome]
    obtain ⟨r, hr, hm⟩ := h
    exact ⟨r, hr, hm⟩
  cases hf : table.find? (matchesQuery q) with
  | some r => simp [get_or_create_object, hf]
  | none => rw [hf] at hs; simp at hs

lemma goc_countP (table : List ExerciseRow) (q : ExerciseQuery) :
    (get_or_create_object table q).2.2.countP (matchesQuery q) =
      max (table.countP (matchesQuery q)) 1 := by
  unfold get_or_create_object
  cases h : table.find? (matchesQuery q) with
  | some r =>
    have hpos : 0 < table.countP (matchesQuery q) := by
      rw [List.countP_pos_iff]
      exact ⟨r, List.mem_of_find?_eq_some h, List.find?_some h⟩
    simp only
    omega
  | none =>
    have hz : table.countP (matchesQuery q) = 0 := by
      rw [List.countP_eq_zero]
      intro a ha
      exact List.find?_eq_none.mp h a ha
    simp only [List.countP_append, hz]
    simp [List.countP_cons, matchesQuery_toRow q]

lemma countP_eraseP_eq_zero {α : Type} (p : α → Bool) :
    ∀ l : List α, l.countP p ≤ 1 → (l.eraseP p).countP p = 0 := by
  intro l
  induction l with
  | nil => simp
  | cons a tl ih =>
    intro h
    by_cases hp : p a
    · rw [List.eraseP_cons_of_pos hp]
      rw [List.countP_cons_of_pos _ _ hp] at h
      omega
    · rw [List.eraseP_cons_of_neg hp, List.countP_cons_of_neg _ _ hp]
      rw [List.countP_cons_of_neg _ _ hp] at h
      exact ih h

lemma optMatch_some {α : Type} [DecidableEq α] {v : α} {rv : Option α}
    (h : optMatch (some v) rv = true) : rv = some v := by
  simpa [optMatch] using h

lemma matchesQuery_split {q : ExerciseQuery} {r : ExerciseRow}
    (h : matchesQuery q r = true) :
    r.language = q.language ∧ r.type = q.type ∧
      optMatch q.translation_language r.translation_language = true ∧
      optMatch q.term r.term = true ∧
      optMatch q.origin_language r.origin_language = true ∧
      optMatch q.term_example_id r.term_example_id = true ∧
      optMatch q.pronunciation_id r.pronunciation_id = true ∧
      optMatch q.term_lexical_id r.term_lexical_id = true ∧
      optMatch q.term_definition_id r.term_definition_id = true := by
  simp only [matchesQuery, Bool.and_eq_true, beq_iff_eq] at h
  tauto

/-- Claim C8: exercise derivation is idempotent.  `get_or_create_object`
returns the first row matching all the given attributes with
`created = False` when one exists and only inserts `Model(**kwargs)`
otherwise; the matching-row count of the resulting table is
`max(previous count, 1)` (so a hook that found no row leaves exactly one),
and a second run on the produced table changes nothing and reports
`created = False`. -/
theorem C8_get_or_create_idempotent (table : List ExerciseRow) (q : ExerciseQuery) :
    (∀ r, table.find? (matchesQuery q) = some r →
      get_or_create_object table q = (r, false, table)) ∧
    (table.find? (matchesQuery q) = none →
      get_or_create_object table q = (q.toRow, true, table ++ [q.toRow])) ∧
    (get_or_create_object table q).2.2.countP (matchesQuery q) =
      max (table.countP (matchesQuery q)) 1 ∧
    get_or_create_object (get_or_create_object table q).2.2 q =
      ((get_or_create_object (get_or_create_object table q).2.2 q).1, false,
        (get_or_create_object table q).2.2) :=
  ⟨fun _ h => goc_found h, fun h => goc_not_found h, goc_countP table q,
    goc_unchanged_of_exists (goc_exists_match table q)⟩

/-- Witness for C8 at a concrete empty table. -/
theorem C8_witness :
    get_or_create_object []
        { language := Language.english, type := ExerciseType.speak_term } =
      (ExerciseQuery.toRow { language := Language.english, type := ExerciseType.speak_term },
        true,
        [ExerciseQuery.toRow { language := Language.english, type := ExerciseType.speak_term }]) :=
  (C8_get_or_create_idempotent []
    { language := Language.english, type := ExerciseType.speak_term }).2.1 rfl

/-- Claim C4: the `TermLexical` insert hook creates nothing for
non-antonym entries; for an antonym entry it get-or-creates the
`MCHOICE_TERM` exercise for `(term, origin_language)` with `language =
origin_language` exactly when the term now has at least 3 antonym entries
(the freshly inserted row included), and changes nothing with fewer. -/
theorem C4_mchoice_term_exercise (db : DB) (row : TermLexicalRow) :
    (row.type ≠ TermLexicalType.antonym →
      (termLexicalInsert db row).exercises = db.exercises) ∧
    (row.type = TermLexicalType.antonym →
      (3 ≤ ((db.lexicals ++ [row]).filter (fun l =>
          l.term == row.term && l.origin_language == row.origin_language &&
            l.type == TermLexicalType.antonym)).length →
        ∃ r ∈ (termLexicalInsert db row).exercises,
          r.type = ExerciseType.mchoice_term ∧ r.term = some row.term ∧
            r.origin_language = some row.origin_language ∧
            r.language = row.origin_language) ∧
      (((db.lexicals ++ [row]).filter (fun l =>
          l.term == row.term && l.origin_language == row.origin_language &&
            l.type == TermLexicalType.antonym)).length < 3 →
        (termLexicalInsert db row).exercises = db.exercises)) := by
  constructor
  · intro hne
    simp [termLexicalInsert, insert_mchoice_term_exercise, bne_iff_ne, hne]
  · intro heq
    constructor
    · intro h3
      simp only [termLexicalInsert, insert_mchoice_term_exercise, heq,
        bne_self_eq_false, Bool.false_eq_true, if_false, ge_iff_le]
      rw [if_pos h3]
      obtain ⟨r, hr, hm⟩ := goc_exists_match db.exercises
        { term := some row.term, origin_language := some row.origin_language,
          type := ExerciseType.mchoice_term, language := row.origin_language }
      obtain ⟨hl, ht, _, hterm, horig, _, _, _, _⟩ := matchesQuery_split hm
      exact ⟨r, hr, ht, optMatch_some hterm, optMatch_some horig, hl⟩
    · intro hlt
      simp only [termLexicalInsert, insert_mchoice_term_exercise, heq,
        bne_self_eq_false, Bool.false_eq_true, if_false, ge_iff_le]
      rw [if_neg (by omega)]

/-- Witness for C4: three antonyms of an English term trigger the
multiple-choice exercise. -/
theorem C4_witness :
    ∃ r ∈ (termLexicalInsert
        { lexicals := [
            { id := 1, term := "big", origin_language := Language.english,
              value := "small", type := TermLexicalType.antonym },
            { id := 2, term := "big", origin_language := Language.english,
              value := "little", type := TermLexicalType.antonym }] }
        { id := 3, term := "big", origin_language := Language.english,
          value := "tiny", type := TermLexicalType.antonym }).exercises,
      r.type = ExerciseType.mchoice_term ∧ r.term = some "big" ∧
        r.origin_language = some Language.english ∧ r.language = Language.english :=
  ((C4_mchoice_term_exercise _ _).2 rfl).1 (by decide)

/-- Counterexample to claim C1 as stated: inserting an example (which fires
the sole `after_insert` listener on `TermExample`,
`insert_speak_sentence_exercise`) succeeds, yet no `ORDER_SENTENCE`
exercise row exists afterwards — the order-sentence hook listens on
`TermExampleTranslation`, not on `TermExample`. -/
theorem C1_counterexample :
    (termExampleInsert {} exampleRowC1).examples = [exampleRowC1] ∧
      (termExampleInsert {} exampleRowC1).exercises.length = 1 ∧
      ∀ r ∈ (termExampleInsert {} exampleRowC1).exercises,
        r.type ≠ ExerciseType.order_sentence := by
  decide

lemma insert_order_exercise_eq {db : DB} {tr : TermExampleTranslationRow}
    {ex : TermExampleRow}
    (hex : db.examples.find? (fun e => e.id == tr.term_example_id) = some ex) :
    insert_order_exercise db tr =
      some { db with exercises := (get_or_create_object db.exercises
        { language := ex.language, term_example_id := some tr.term_example_id,
          translation_language := some tr.language,
          type := ExerciseType.order_sentence }).2.2 } := by
  unfold insert_order_exercise
  rw [hex]

/-- Claim C1 as amended: for every insert of an example translation
(`TermExampleTranslation`), an `ORDER_SENTENCE` exercise is get-or-created
keyed by the translated example's language, the example id and the
translation's language; inserting the same translation again leaves the
exercise table unchanged. -/
theorem C1_order_exercise_on_translation_insert (db : DB)
    (tr : TermExampleTranslationRow) (ex : TermExampleRow)
    (hex : db.examples.find? (fun e => e.id == tr.term_example_id) = some ex) :
    ∃ db1, termExampleTranslationInsert db tr = some db1 ∧
      (∃ r ∈ db1.exercises, r.type = ExerciseType.order_sentence ∧
        r.language = ex.language ∧ r.term_example_id = some tr.term_example_id ∧
        r.translation_language = some tr.language) ∧
      ∃ db2, termExampleTranslationInsert db1 tr = some db2 ∧
        db2.exercises = db1.exercises := by
  unfold termExampleTranslationInsert
  rw [@insert_order_exercise_eq
    { db with example_translations := db.example_translations ++ [tr] } tr ex hex]
  refine ⟨_, rfl, ?_, ?_⟩
  · obtain ⟨r, hr, hm⟩ := goc_exists_match db.exercises
      { language := ex.language, term_example_id := some tr.term_example_id,
        translation_language := some tr.language, type := ExerciseType.order_sentence }
    obtain ⟨hl, ht, htl, _, _, hexid, _, _, _⟩ := matchesQuery_split hm
    exact ⟨r, hr, ht, hl, optMatch_some hexid, optMatch_some htl⟩
  · refine ⟨_, insert_order_exercise_eq hex, ?_⟩
    have h := goc_unchanged_of_exists (goc_exists_match db.exercises
      { language := ex.language, term_example_id := some tr.term_example_id,
        translation_language := some tr.language, type := ExerciseType.order_sentence })
    exact congrArg (fun t => t.2.2) h

/-- Witness for the amended C1 at a concrete database holding one example. -/
theorem C1_witness :
    ∃ db1, termExampleTranslationInsert { examples := [exampleRowC1] }
        { language := Language.portuguesBrasil, term_example_id := 1,
          translation := "Eu fiz um bolo." } = some db1 ∧
      (∃ r ∈ db1.exercises, r.type = ExerciseType.order_sentence ∧
        r.language = Language.english ∧ r.term_example_id = some 1 ∧
        r.translation_language = some Language.portuguesBrasil) ∧
      ∃ db2, termExampleTranslationInsert db1
          { language := Language.portuguesBrasil, term_example_id := 1,
            translation := "Eu fiz um bolo." } = some db2 ∧
        db2.exercises = db1.exercises :=
  C1_order_exercise_on_translation_insert { examples := [exampleRowC1] }
    { language := Language.portuguesBrasil, term_example_id := 1,
      translation := "Eu fiz um bolo." } exampleRowC1 (by decide)

lemma insert_listen_no_audio {db : DB} {link : PronunciationLinkRow}
    {p : PronunciationRow}
    (hp : db.pronunciations.find? (fun x => x.id == link.pronunciation_id) = some p)
    (ha : p.audio_file = none) :
    insert_listen_exercise db link = some db := by
  unfold insert_listen_exercise
  rw [hp]
  simp [ha]

lemma audio_file_isNone_false {p : PronunciationRow} (ha : p.audio_file ≠ none) :
    p.audio_file.isNone = false := by
  cases hx : p.audio_file with
  | none => exact absurd hx ha
  | some a => rfl

lemma insert_listen_term_target {db : DB} {link : PronunciationLinkRow}
    {p : PronunciationRow} {t : String} {ol : Language}
    (hp : db.pronunciations.find? (fun x => x.id == link.pronunciation_id) = some p)
    (ha : p.audio_file ≠ none) (ht : link.term = some t) (hne : t ≠ "")
    (hol : link.origin_language = some ol) :
    insert_listen_exercise db link =
      some { db with exercises := (get_or_create_object db.exercises
        { term := some t, origin_language := some ol, language := ol,
          type := ExerciseType.listen_term,
          pronunciation_id := some link.pronunciation_id }).2.2 } := by
  unfold insert_listen_exercise
  rw [hp]
  have h2 : truthyStr (some t) = true := by simp [truthyStr, hne]
  simp [audio_file_isNone_false ha, ht, h2, hol]

lemma insert_listen_example_target {db : DB} {link : PronunciationLinkRow}
    {p : PronunciationRow} {exid : Nat} {ex : TermExampleRow}
    (hp : db.pronunciations.find? (fun x => x.id == link.pronunciation_id) = some p)
    (ha : p.audio_file ≠ none) (ht : truthyStr link.term = false)
    (hexid : link.term_example_id = some exid) (hne : exid ≠ 0)
    (hfind : db.examples.find? (fun e => e.id == exid) = some ex) :
    insert_listen_exercise db link =
      some { db with exercises := (get_or_create_object db.exercises
        { language := ex.language, term_example_id := some exid,
          type := ExerciseType.listen_sentence,
          pronunciation_id := some link.pronunciation_id }).2.2 } := by
  unfold insert_listen_exercise
  rw [hp]
  have h2 : truthyNat (some exid) = true := by simp [truthyNat, hne]
  simp [audio_file_isNone_false ha, ht, hexid, h2, hfind]

lemma insert_listen_lexical_target {db : DB} {link : PronunciationLinkRow}
    {p : PronunciationRow} {lexid : Nat} {lex : TermLexicalRow}
    (hp : db.pronunciations.find? (fun x => x.id == link.pronunciation_id) = some p)
    (ha : p.audio_file ≠ none) (ht : truthyStr link.term = false)
    (hexid : truthyNat link.term_example_id = false)
    (hlexid : link.term_lexical_id = some lexid) (hne : lexid ≠ 0)
    (hfind : db.lexicals.find? (fun l => l.id == lexid) = some lex) :
    insert_listen_exercise db link =
      some { db with exercises := (get_or_create_object db.exercises
        { language := lex.origin_language, term_lexical_id := some lexid,
          type := ExerciseType.listen_term,
          pronunciation_id := some link.pronunciation_id }).2.2 } := by
  unfold insert_listen_exercise
  rw [hp]
  have h2 : truthyNat (some lexid) = true := by simp [truthyNat, hne]
  simp [audio_file_isNone_false ha, ht, hexid, hlexid, h2, hfind]

lemma listen_term_exercise_exists {db : DB} {link : PronunciationLinkRow}
    {p : PronunciationRow} {t : String} {ol : Language}
    (hp : db.pronunciations.find? (fun x => x.id == link.pronunciation_id) = some p)
    (ha : p.audio_file ≠ none) (ht : link.term = some t) (hne : t ≠ "")
    (hol : link.origin_language = some ol) :
    ∃ db1, insert_listen_exercise db link = some db1 ∧
      ∃ r ∈ db1.exercises, r.type = ExerciseType.listen_term ∧ r.language = ol ∧
        r.term = some t ∧ r.origin_language = some ol ∧
        r.pronunciation_id = some link.pronunciation_id := by
  refine ⟨_, insert_listen_term_target hp ha ht hne hol, ?_⟩
  obtain ⟨r, hr, hm⟩ := goc_exists_match db.exercises
    { term := some t, origin_language := some ol, language := ol,
      type := ExerciseType.listen_term,
      pronunciation_id := some link.pronunciation_id }
  obtain ⟨hl, hty, _, hterm, horig, _, hpid, _, _⟩ := matchesQuery_split hm
  exact ⟨r, hr, hty, hl, optMatch_some hterm, optMatch_some horig,
    optMatch_some hpid⟩

/-- Claim C2: the `PronunciationLink` insert hook creates no exercise when
the linked pronunciation has no audio; with audio, a term target yields a
`LISTEN_TERM` exercise with `language = origin_language`, an example target
a `LISTEN_SENTENCE` exercise with the example's language, and a lexical
target a `LISTEN_TERM` exercise with the lexical entry's `origin_language`,
each carrying the `pronunciation_id`. -/
theorem C2_listen_exercise_on_link_insert (db : DB) (link : PronunciationLinkRow)
    (p : PronunciationRow)
    (hp : db.pronunciations.find? (fun x => x.id == link.pronunciation_id) = some p) :
    (p.audio_file = none → insert_listen_exercise db link = some db) ∧
    (∀ t ol, p.audio_file ≠ none → link.term = some t → t ≠ "" →
      link.origin_language = some ol →
      ∃ db1, insert_listen_exercise db link = some db1 ∧
        ∃ r ∈ db1.exercises, r.type = ExerciseType.listen_term ∧ r.language = ol ∧
          r.term = some t ∧ r.origin_language = some ol ∧
          r.pronunciation_id = some link.pronunciation_id) ∧
    (∀ exid ex, p.audio_file ≠ none → truthyStr link.term = false →
      link.term_example_id = some exid → exid ≠ 0 →
      db.examples.find? (fun e => e.id == exid) = some ex →
      ∃ db1, insert_listen_exercise db link = some db1 ∧
        ∃ r ∈ db1.exercises, r.type = ExerciseType.listen_sentence ∧
          r.language = ex.language ∧ r.term_example_id = some exid ∧
          r.pronunciation_id = some link.pronunciation_id) ∧
    (∀ lexid lex, p.audio_file ≠ none → truthyStr link.term = false →
      truthyNat link.term_example_id = false → link.term_lexical_id = some lexid →
      lexid ≠ 0 → db.lexicals.find? (fun l => l.id == lexid) = some lex →
      ∃ db1, insert_listen_exercise db link = some db1 ∧
        ∃ r ∈ db1.exercises, r.type = ExerciseType.listen_term ∧
          r.language = lex.origin_language ∧ r.term_lexical_id = some lexid ∧
          r.pronunciation_id = some link.pronunciation_id) := by
  refine ⟨fun ha => insert_listen_no_audio hp ha, ?_, ?_, ?_⟩
  · intro t ol ha ht hne hol
    exact listen_term_exercise_exists hp ha ht hne hol
  · intro exid ex ha ht hexid hne hfind
    refine ⟨_, insert_listen_example_target hp ha ht hexid hne hfind, ?_⟩
    obtain ⟨r, hr, hm⟩ := goc_exists_match db.exercises
      { language := ex.language, term_example_id := some exid,
        type := ExerciseType.listen_sentence,
        pronunciation_id := some link.pronunciation_id }
    obtain ⟨hl, hty, _, _, _, hexid2, hpid, _, _⟩ := matchesQuery_split hm
    exact ⟨r, hr, hty, hl, optMatch_some hexid2, optMatch_some hpid⟩
  · intro lexid lex ha ht hexid hlexid hne hfind
    refine ⟨_, insert_listen_lexical_target hp ha ht hexid hlexid hne hfind, ?_⟩
    obtain ⟨r, hr, hm⟩ := goc_exists_match db.exercises
      { language := lex.origin_language, term_lexical_id := some lexid,
        type := ExerciseType.listen_term,
        pronunciation_id := some link.pronunciation_id }
    obtain ⟨hl, hty, _, _, _, _, hpid, hlex, _⟩ := matchesQuery_split hm
    exact ⟨r, hr, hty, hl, optMatch_some hlex, optMatch_some hpid⟩

/-- Witness for C2: a term-targeted link of an audio-bearing pronunciation
yields the `LISTEN_TERM` exercise. -/
theorem C2_witness :
    ∃ db1, insert_listen_exercise { pronunciations := [pronRowC2] }
        { pronunciation_id := 5, term := some "house",
          origin_language := some Language.english } = some db1 ∧
      ∃ r ∈ db1.exercises, r.type = ExerciseType.listen_term ∧
        r.language = Language.english ∧ r.term = some "house" ∧
        r.origin_language = some Language.english ∧
        r.pronunciation_id = some 5 :=
  (C2_listen_exercise_on_link_insert { pronunciations := [pronRowC2] }
      { pronunciation_id := 5, term := some "house",
        origin_language := some Language.english }
      pronRowC2 (by decide)).2.1 "house" Language.english
    (by decide) rfl (by decide) rfl

/-- Claim C3: updating a pronunciation so that its `audio_file` is empty
removes every listen exercise referencing it (given the derivation
invariant that a pronunciation has at most one such exercise — the hook
deletes `.first()` only); updating it with audio set re-applies the
listen-exercise insert rule to the pronunciation's link, so for an
audio-bearing term-targeted link the `LISTEN_TERM` exercise exists again
afterwards. -/
theorem C3_update_listen_exercise (db : DB) (target : PronunciationRow) :
    (truthyStr target.audio_file = false →
      db.exercises.countP (isListenExerciseOf target.id) ≤ 1 →
      ∃ db1, update_listen_exercise db target = some db1 ∧
        ∀ r ∈ db1.exercises, isListenExerciseOf target.id r = false) ∧
    (truthyStr target.audio_file = true →
      ∀ link, db.pronunciation_links.find?
          (fun l => l.pronunciation_id == target.id) = some link →
        update_listen_exercise db target = insert_listen_exercise db link) ∧
    (truthyStr target.audio_file = true →
      ∀ link p t ol, db.pronunciation_links.find?
          (fun l => l.pronunciation_id == target.id) = some link →
        db.pronunciations.find?
          (fun x => x.id == link.pronunciation_id) = some p →
        p.audio_file ≠ none → link.term = some t → t ≠ "" →
        link.origin_language = some ol →
        ∃ db1, update_listen_exercise db target = some db1 ∧
          ∃ r ∈ db1.exercises, r.type = ExerciseType.listen_term ∧
            r.language = ol ∧ r.term = some t ∧ r.origin_language = some ol ∧
            r.pronunciation_id = some link.pronunciation_id) := by
  have hfalse : truthyStr target.audio_file = false →
      update_listen_exercise db target =
        some { db with exercises := db.exercises.eraseP (isListenExerciseOf target.id) } := by
    intro ha
    unfold update_listen_exercise
    simp [ha]
  have htrue : truthyStr target.audio_file = true →
      ∀ link, db.pronunciation_links.find?
          (fun l => l.pronunciation_id == target.id) = some link →
        update_listen_exercise db target = insert_listen_exercise db link := by
    intro ha link hlink
    unfold update_listen_exercise
    simp [ha, hlink]
  refine ⟨?_, htrue, ?_⟩
  · intro ha hcount
    refine ⟨_, hfalse ha, ?_⟩
    intro r hr
    have hz := countP_eraseP_eq_zero (isListenExerciseOf target.id) db.exercises hcount
    rw [List.countP_eq_zero] at hz
    simpa using hz r hr
  · intro ha link p t ol hlink hp hpa ht hne hol
    rw [htrue ha link hlink]
    exact listen_term_exercise_exists hp hpa ht hne hol

/-- Witness for C3: clearing the audio of a pronunciation that has one
listen exercise deletes it. -/
theorem C3_witness :
    ∃ db1, update_listen_exercise dbC3 pronRowC3 = some db1 ∧
      ∀ r ∈ db1.exercises, isListenExerciseOf 5 r = false :=
  (C3_update_listen_exercise dbC3 pronRowC3).1 rfl (by decide)

/-- Claim C10: `Term.get` never performs its lookup for any cleaning
function, database and query — constants.py names the form member `FORMS`
while the query references `constants.TermLexicalType.FORM`, so every call
raises `AttributeError` instead of returning the matched base term or
`None`. -/
theorem C10_term_get_always_raises (cleanText : String → String) (db : DB)
    (term : String) (origin_language : Language) :
    termGet cleanText db term origin_language =
      Except.error PyError.attributeError := rfl

/-- Claim C9, evaluated: an example-targeted link whose example is missing
takes the documented path — the pronunciation row is deleted, no link row
is written, and the 404 is re-raised; but a term-targeted link never
reaches that path: `Term.get_or_404` raises `AttributeError` (the
`FORMS`/`FORM` member slip of constants.py), which `except HTTPException`
does not catch, so the pronunciation row survives as an orphan. -/
theorem C9_create_cleanup_evaluated :
    (pronunciationLink_create id dbC9
        { pronunciation_id := 1, term_example_id := some 7 } =
      ({ dbC9 with pronunciations := [] }, Except.error PyError.httpNotFound)) ∧
    (pronunciationLink_create id dbC9
        { pronunciation_id := 1, term := some "casa",
          origin_language := some Language.english } =
      (dbC9, Except.error PyError.attributeError)) := by
  constructor
  · rfl
  · rfl

/-- Claim C7: a link payload passes `link_validation` exactly when it names
exactly one target — a nonempty `term` together with an `origin_language`
and nothing else, or exactly one of the two id targets alone.  Zero
targets, `term` without `origin_language` (or vice versa), and any two
targets at once are rejected. -/
theorem C7_link_validation_exactly_one_target (s : LinkTargets) :
    link_validation s = true ↔
      ((∃ t, s.term = some t ∧ t ≠ "") ∧ s.origin_language.isSome = true ∧
        s.target_id_a = none ∧ s.target_id_b = none) ∨
      (s.term = none ∧ s.origin_language = none ∧ s.target_id_a.isSome = true ∧
        s.target_id_b = none) ∨
      (s.term = none ∧ s.origin_language = none ∧ s.target_id_a = none ∧
        s.target_id_b.isSome = true) := by
  obtain ⟨t, ol, a, b⟩ := s
  cases t with
  | none =>
    cases ol <;> cases a <;> cases b <;>
      simp [link_validation, link_count, truthyStr]
  | some ts =>
    by_cases hts : ts = ""
    · subst hts
      cases ol <;> cases a <;> cases b <;>
        simp [link_validation, link_count, truthyStr]
    · cases ol <;> cases a <;> cases b <;>
        simp [link_validation, link_count, truthyStr, hts]

lemma mem_rangeClosed {x a b : Int} : x ∈ rangeClosed a b ↔ a ≤ x ∧ x ≤ b := by
  unfold rangeClosed
  rw [List.mem_map]
  constructor
  · rintro ⟨i, hi, rfl⟩
    rw [List.mem_range] at hi
    have hcast := Int.lt_toNat.mp hi
    have h0 := Int.natCast_nonneg i
    constructor <;> omega
  · rintro ⟨h1, h2⟩
    refine ⟨(x - a).toNat, ?_, ?_⟩
    · rw [List.mem_range, Int.toNat_lt_toNat] <;> omega
    · rw [Int.toNat_of_nonneg (by omega : (0 : Int) ≤ x - a)]
      omega

lemma pointIn_pair {x v1 v2 : Int} : pointIn x [v1, v2] ↔ v1 ≤ x ∧ x ≤ v2 := by
  unfold pointIn
  constructor
  · rintro ⟨s, e, heq, h1, h2⟩
    simp only [List.cons.injEq, and_true] at heq
    obtain ⟨rfl, rfl⟩ := heq
    exact ⟨h1, h2⟩
  · rintro ⟨h1, h2⟩
    exact ⟨v1, v2, rfl, h1, h2⟩

lemma pairsDisjoint_pair_left {v1 v2 : Int} {w : List Int} :
    pairsDisjoint [v1, v2] w ↔ ∀ x, v1 ≤ x → x ≤ v2 → ¬ pointIn x w := by
  unfold pairsDisjoint
  constructor
  · intro h x h1 h2 hw
    exact h x (pointIn_pair.mpr ⟨h1, h2⟩) hw
  · intro h x hv hw
    obtain ⟨h1, h2⟩ := pointIn_pair.mp hv
    exact h x h1 h2 hw

lemma overlap_check_iff {v1 v2 : Int} {acc : List Int} :
    ((rangeClosed v1 v2).any (fun i => acc.contains i) = true) ↔
      ∃ x ∈ acc, v1 ≤ x ∧ x ≤ v2 := by
  simp only [List.any_eq_true, List.contains_iff_exists_mem_beq, beq_iff_eq]
  constructor
  · rintro ⟨i, hi, x, hx, rfl⟩
    exact ⟨i, hx, mem_rangeClosed.mp hi⟩
  · rintro ⟨x, hx, h1, h2⟩
    exact ⟨x, mem_rangeClosed.mpr ⟨h1, h2⟩, x, hx, rfl⟩

lemma validate_pairs_cons (v1 v2 L : Int) (rest : List (List Int)) (acc : List Int) :
    validate_pairs ([v1, v2] :: rest) L acc =
      if 0 ≤ v1 ∧ v1 ≤ v2 ∧ v2 ≤ L ∧ ¬ ∃ x ∈ acc, v1 ≤ x ∧ x ≤ v2 then
        validate_pairs rest L (acc ++ rangeClosed v1 v2)
      else false := by
  simp only [validate_pairs]
  by_cases h1 : v1 > L ∨ v2 > L
  · rw [if_pos (by rcases h1 with h | h <;> simp [h]), if_neg (by omega)]
  · rw [if_neg (by simpa using h1)]
    by_cases h2 : v1 < 0 ∨ v2 < 0
    · rw [if_pos (by rcases h2 with h | h <;> simp [h]), if_neg (by omega)]
    · rw [if_neg (by simpa using h2)]
      by_cases h3 : v1 > v2
      · rw [if_pos (by simpa using h3), if_neg (by omega)]
      · rw [if_neg (by simpa using h3)]
        by_cases h4 : ∃ x ∈ acc, v1 ≤ x ∧ x ≤ v2
        · rw [if_pos (overlap_check_iff.mpr h4), if_neg (fun hc => hc.2.2.2 h4)]
        · rw [if_neg (fun hb => h4 (overlap_check_iff.mp hb)),
            if_pos ⟨by omega, by omega, by omega, h4⟩]

lemma validate_pairs_iff (L : Int) (hl : List (List Int)) :
    ∀ acc : List Int,
      validate_pairs hl L acc = true ↔
        ((∀ v ∈ hl, pairOK L v) ∧ List.Pairwise pairsDisjoint hl ∧
          ∀ v ∈ hl, ∀ x ∈ acc, ¬ pointIn x v) := by
  induction hl with
  | nil =>
    intro acc
    simp [validate_pairs]
  | cons v rest ih =>
    intro acc
    rcases v with _ | ⟨v1, _ | ⟨v2, _ | ⟨v3, vtl⟩⟩⟩
    · constructor
      · intro h
        simp [validate_pairs] at h
      · rintro ⟨hOK, -, -⟩
        obtain ⟨s, e, heq, -⟩ := hOK [] (by simp)
        cases heq
    · constructor
      · intro h
        simp [validate_pairs] at h
      · rintro ⟨hOK, -, -⟩
        obtain ⟨s, e, heq, -⟩ := hOK [v1] (by simp)
        simp at heq
    · rw [validate_pairs_cons]
      by_cases hC : 0 ≤ v1 ∧ v1 ≤ v2 ∧ v2 ≤ L ∧ ¬ ∃ x ∈ acc, v1 ≤ x ∧ x ≤ v2
      · rw [if_pos hC, ih (acc ++ rangeClosed v1 v2)]
        obtain ⟨hv0, hv12, hv2L, hnacc⟩ := hC
        constructor
        · rintro ⟨hOKr, hPr, hAccr⟩
          refine ⟨?_, ?_, ?_⟩
          · intro w hw
            rcases List.mem_cons.mp hw with rfl | hw'
            · exact ⟨v1, v2, rfl, hv0, hv12, hv2L⟩
            · exact hOKr w hw'
          · rw [List.pairwise_cons]
            refine ⟨?_, hPr⟩
            intro w hw
            rw [pairsDisjoint_pair_left]
            intro x hx1 hx2 hpw
            exact hAccr w hw x
              (List.mem_append.mpr (Or.inr (mem_rangeClosed.mpr ⟨hx1, hx2⟩))) hpw
          · intro w hw x hxacc
            rcases List.mem_cons.mp hw with rfl | hw'
            · intro hpx
              obtain ⟨ha, hb⟩ := pointIn_pair.mp hpx
              exact hnacc ⟨x, hxacc, ha, hb⟩
            · exact hAccr w hw' x (List.mem_append.mpr (Or.inl hxacc))
        · rintro ⟨hOK, hP, hAcc⟩
          rw [List.pairwise_cons] at hP
          refine ⟨fun w hw => hOK w (List.mem_cons_of_mem _ hw), hP.2, ?_⟩
          intro w hw x hx
          rcases List.mem_append.mp hx with hxa | hxr
          · exact hAcc w (List.mem_cons_of_mem _ hw) x hxa
          · have hd := hP.1 w hw
            rw [pairsDisjoint_pair_left] at hd
            obtain ⟨ha, hb⟩ := mem_rangeClosed.mp hxr
            exact hd x ha hb
      · rw [if_neg hC]
        constructor
        · intro h
          simp at h
        · rintro ⟨hOK, -, hAcc⟩
          exfalso
          apply hC
          obtain ⟨s, e, heq, h0, hse, heL⟩ := hOK [v1, v2] (by simp)
          simp only [List.cons.injEq, and_true] at heq
          obtain ⟨rfl, rfl⟩ := heq
          refine ⟨h0, hse, heL, ?_⟩
          rintro ⟨x, hxacc, hx1, hx2⟩
          exact hAcc [v1, v2] (by simp) x hxacc (pointIn_pair.mpr ⟨hx1, hx2⟩)
    · constructor
      · intro h
        simp [validate_pairs] at h
      · rintro ⟨hOK, -, -⟩
        obtain ⟨s, e, heq, -⟩ := hOK (v1 :: v2 :: v3 :: vtl) (by simp)
        simp at heq

/-- Claim C5: `validate_highlight` accepts a highlight list for a text of
`textLen` characters if and only if every entry is a pair `[start, end]`
with `0 ≤ start`, `start ≤ end`, `end ≤ len(text) - 1` (hence both
positions in bounds), and the closed intervals of distinct pairs share no
position; any violation raises the validator's `ValueError` (surfaced as
HTTP 422), modelled as rejection. -/
theorem C5_validate_highlight_iff (highlight : List (List Int)) (textLen : Nat) :
    validate_highlight highlight textLen = true ↔
      ((∀ v ∈ highlight, ∃ s e, v = [s, e] ∧ 0 ≤ s ∧ s ≤ e ∧
          e ≤ (textLen : Int) - 1) ∧
        List.Pairwise pairsDisjoint highlight) := by
  unfold validate_highlight
  rw [validate_pairs_iff]
  simp [pairOK]

/-- Counterexample to claim C6 as stated: this creation request passes the
schema validation (its only validators are the link check and the highlight
coordinate check) although no whitespace-delimited word of its text starts
and ends with the marker `'*'` — `check_text_highlight` is defined in
`fluentia/core/api/highlight.py` but no creation path calls it. -/
theorem C6_counterexample :
    termExampleSchema_validate payloadC6 = true ∧
      check_text_highlight payloadC6.example_ = false := by
  constructor
  · decide
  · decide

/-- Claim C6 as amended: `check_text_highlight` recognises exactly the
texts in which some whitespace-delimited word (after stripping the other
punctuation) starts and ends with `'*'`; but example/translation creation
never invokes it — the schema's acceptance is invariant under replacing the
text by any other text of the same length, so texts without a marker span
are accepted. -/
theorem C6_highlight_marker_not_enforced :
    (∀ text, check_text_highlight text = true ↔
      ∃ w ∈ pySplit (stripPunct text),
        w.head? = some '*' ∧ w.getLast? = some '*') ∧
    (∀ (p : TermExampleSchemaPayload) (s : String),
      p.example_.length = s.length →
      termExampleSchema_validate { p with example_ := s } =
        termExampleSchema_validate p) := by
  constructor
  · intro text
    simp [check_text_highlight, List.any_eq_true, Bool.and_eq_true]
  · intro p s h
    simp only [termExampleSchema_validate]
    rw [h]

/-- Witness for the amended C6 at a concrete payload: a same-length text
with a marker span validates exactly like the marker-free one. -/
theorem C6_witness :
    termExampleSchema_validate
        { payloadC6 with
          example_ := "*esterday a have lunch in my mothers house*" } =
      termExampleSchema_validate payloadC6 :=
  C6_highlight_marker_not_enforced.2 payloadC6
    "*esterday a have lunch in my mothers house*" (by decide)

end Fluentia
